import Mathlib

/-!
Verification of the gmail2telegram repository: a shallow embedding of the
filter predicate, message parser (including URL-safe base64 decoding),
mailbox listing/label bookkeeping, translator and notifier, together with
an effect-trace model of the poll pipeline, and theorems settling the
specification's claims against them.

Go strings are modelled as `List Char`; Go `nil` pointers as `Option`;
remote calls as oracle functions collected in a record, with an explicit
event trace where ordering or call counts matter.
-/

namespace G2T

/-! ## String helpers (Go `strings` package operations used by the code) -/

/-- Go `strings.ToLower`, rune by rune.  `Char.toLower` covers the ASCII
range, which is all the claims exercise. -/
def toLowerStr (s : List Char) : List Char := s.map Char.toLower

/-- Go `strings.Contains s sub`: `sub` occurs contiguously in `s`. -/
def goContains (s sub : List Char) : Bool := decide (sub <:+: s)

/-- Go `unicode.IsSpace` on the ASCII and Latin-1 range (the cases
`strings.TrimSpace` can meet in the claims). -/
def goIsSpace (c : Char) : Bool :=
  c == ' ' || c == '\t' || c == '\n' || c == '\x0b' || c == '\x0c' || c == '\r' ||
  c == '\x85' || c == '\xa0'

/-- Go `strings.TrimSpace`: drop whitespace from both ends. -/
def trimSpace (s : List Char) : List Char :=
  ((s.dropWhile goIsSpace).reverse.dropWhile goIsSpace).reverse

/-- Worker for `replaceAll`; the fuel is the length of the subject string,
enough because every step consumes at least one character. -/
def replaceAllAux (pat rep : List Char) : Nat → List Char → List Char
  | _, [] => []
  | 0, s => s
  | fuel + 1, c :: rest =>
    if !pat.isEmpty && pat.isPrefixOf (c :: rest) then
      rep ++ replaceAllAux pat rep fuel ((c :: rest).drop pat.length)
    else
      c :: replaceAllAux pat rep fuel rest

/-- Go `strings.ReplaceAll s pat rep` for a non-empty pattern, the only way
the code calls it (Go's empty-pattern interleaving is not modelled: for an
empty pattern this returns `s` unchanged). -/
def replaceAll (s pat rep : List Char) : List Char :=
  replaceAllAux pat rep s.length s

/-! ## URL-safe base64 (Go `base64.URLEncoding.DecodeString`) -/

/-- Value of one character of the URL-safe base64 alphabet. -/
def b64CharVal (c : Char) : Option Nat :=
  if 'A' ≤ c ∧ c ≤ 'Z' then some (c.toNat - 'A'.toNat)
  else if 'a' ≤ c ∧ c ≤ 'z' then some (c.toNat - 'a'.toNat + 26)
  else if '0' ≤ c ∧ c ≤ '9' then some (c.toNat - '0'.toNat + 52)
  else if c = '-' then some 62
  else if c = '_' then some 63
  else none

/-- Decode four-character quanta; `=` padding is legal only in the final
quantum, at the last one or two positions.  Trailing bits are not checked,
as in Go's default (non-strict) decoder.  Any other shape is corrupt. -/
def b64DecodeCore : List Char → Option (List Nat)
  | [] => some []
  | c1 :: c2 :: c3 :: c4 :: rest =>
    match b64CharVal c1, b64CharVal c2 with
    | some v1, some v2 =>
      if c3 = '=' then
        if c4 = '=' ∧ rest = [] then some [v1 * 4 + v2 / 16]
        else none
      else
        match b64CharVal c3 with
        | some v3 =>
          if c4 = '=' then
            if rest = [] then some [v1 * 4 + v2 / 16, v2 % 16 * 16 + v3 / 4]
            else none
          else
            match b64CharVal c4 with
            | some v4 =>
              match b64DecodeCore rest with
              | some tail =>
                some ((v1 * 4 + v2 / 16) :: (v2 % 16 * 16 + v3 / 4) :: (v3 % 4 * 64 + v4) :: tail)
              | none => none
            | none => none
        | none => none
    | _, _ => none
  | _ => none

/-- Go `base64.URLEncoding.DecodeString`: CR and LF are ignored, the rest
must be well-formed quanta; the decoded bytes become the content string. -/
def b64Decode (s : List Char) : Option (List Char) :=
  match b64DecodeCore (s.filter fun c => !(c == '\r' || c == '\n')) with
  | some bytes => some (bytes.map Char.ofNat)
  | none => none

/-! ## Data model (gmail.go) -/

/-- The parsed message value type (`Message` in gmail.go). -/
structure Message where
  ID : List Char
  Subject : List Char
  Content : List Char
  From : List Char
  Date : List Char
deriving DecidableEq, Repr

/-- One filter criterion list each for sender, subject and content
(the `filter` block of the configuration). -/
structure Filter where
  From : List (List Char)
  SubjectKeywords : List (List Char)
  ContentKeywords : List (List Char)
deriving DecidableEq, Repr

/-- The gmail section of the configuration, restricted to the fields the
modelled code reads. -/
structure GmailCfg where
  ForwardedLabel : List Char
  Filter : Filter
deriving DecidableEq, Repr

/-- A Gmail label (`gmail.Label`): remote identifier and display name. -/
structure GLabel where
  Id : List Char
  Name : List Char
deriving DecidableEq, Repr

/-- One message header (`gmail.MessagePartHeader`). -/
structure GHeader where
  Name : List Char
  Value : List Char
deriving DecidableEq, Repr

/-- A message part body (`gmail.MessagePartBody`); the `Option` wrapper at
use sites models the Go `nil` pointer. -/
structure GBody where
  Data : List Char
deriving DecidableEq, Repr

/-- A sub-part of a multipart payload (`gmail.MessagePart` as used for
`Payload.Parts` entries). -/
structure GPart where
  MimeType : List Char
  Body : Option GBody
deriving DecidableEq, Repr

/-- A message payload (`gmail.MessagePart` as used for `Payload`). -/
structure GPayload where
  Headers : List GHeader
  Body : Option GBody
  Parts : List (Option GPart)
deriving DecidableEq, Repr

/-- A raw provider message (`gmail.Message`). -/
structure GMessage where
  Id : List Char
  LabelIds : List (List Char)
  Payload : Option GPayload
deriving DecidableEq, Repr

/-! ## The filter predicate (gmail.go `shouldProcessMessage`) -/

/-- One criterion's inner loop: some entry of `kws` is contained
case-insensitively in `field` (`strings.Contains(strings.ToLower(field),
strings.ToLower(kw))`, OR'd over the list). -/
def anyKeywordMatches (field : List Char) (kws : List (List Char)) : Bool :=
  kws.any fun kw => goContains (toLowerStr field) (toLowerStr kw)

/-- gmail.go `shouldProcessMessage`: each non-empty criterion list must
have a matching entry; an empty list imposes nothing. -/
def shouldProcessMessage (f : Filter) (msg : Message) : Bool :=
  if f.From.length > 0 && !anyKeywordMatches msg.From f.From then false
  else if f.SubjectKeywords.length > 0 && !anyKeywordMatches msg.Subject f.SubjectKeywords then
    false
  else if f.ContentKeywords.length > 0 && !anyKeywordMatches msg.Content f.ContentKeywords then
    false
  else true

/-- The spec's reading of one criterion: absent (empty list), or some entry
matches case-insensitively. -/
def criterionSat (field : List Char) (kws : List (List Char)) : Prop :=
  kws = [] ∨ ∃ kw ∈ kws, goContains (toLowerStr field) (toLowerStr kw) = true

/-! ## The message parser (gmail.go `parseMessage` / `getMessageContent`) -/

/-- Literal "text/plain". -/
def textPlain : List Char := "text/plain".toList

/-- The loop over `Payload.Parts`: the first part that is non-nil, has mime
type exactly "text/plain", a non-nil body and non-empty data; its (still
encoded) data is returned. -/
def firstPlainPart (parts : List (Option GPart)) : Option (List Char) :=
  parts.findSome? fun p? =>
    match p? with
    | none => none
    | some p =>
      if p.MimeType = textPlain then
        match p.Body with
        | some b => if b.Data ≠ [] then some b.Data else none
        | none => none
      else none

/-- The payload datum `getMessageContent` selects for decoding: the inline
body when present with non-empty data, else the first text/plain part with
non-empty data; `none` when neither exists (content stays empty). -/
def selectedPayloadData (p : GPayload) : Option (List Char) :=
  match p.Body with
  | some b => if b.Data ≠ [] then some b.Data else firstPlainPart p.Parts
  | none => firstPlainPart p.Parts

/-- gmail.go `getMessageContent`: error on a nil payload or when the
selected datum is not valid base64; empty content (no error) when nothing
was selected. -/
def getMessageContent (m : GMessage) : Except Unit (List Char) :=
  match m.Payload with
  | none => Except.error ()
  | some p =>
    match selectedPayloadData p with
    | none => Except.ok []
    | some d =>
      match b64Decode d with
      | none => Except.error ()
      | some s => Except.ok s

/-- Literal "Subject". -/
def subjectHdr : List Char := "Subject".toList

/-- Literal "From". -/
def fromHdr : List Char := "From".toList

/-- Literal "Date". -/
def dateHdr : List Char := "Date".toList

/-- The header scan of `parseMessage`: each matching header assigns its
field, a later occurrence overwriting an earlier one. -/
def parseHeadersFold (hs : List GHeader) (base : Message) : Message :=
  hs.foldl
    (fun acc h =>
      if h.Name = subjectHdr then { acc with Subject := h.Value }
      else if h.Name = fromHdr then { acc with From := h.Value }
      else if h.Name = dateHdr then { acc with Date := h.Value }
      else acc)
    base

/-- gmail.go `parseMessage`: headers scanned, then content extracted; a
content error is the message's error.  (On a nil payload the Go header loop
would dereference nil; here the nil payload surfaces as the content error,
the only observable difference being panic versus error on that input,
which no claim touches.) -/
def parseMessage (m : GMessage) : Except Unit Message :=
  let hs := match m.Payload with
    | some p => p.Headers
    | none => []
  let base := parseHeadersFold hs ⟨m.Id, [], [], [], []⟩
  match getMessageContent m with
  | Except.error e => Except.error e
  | Except.ok c => Except.ok { base with Content := c }

/-! ## The notifier (telegram.go `TelegramBot.SendMessage`) -/

/-- The Telegram bot restricted to its routing state; the token, base URL
and HTTP transport live inside the per-destination send oracle. -/
structure TelegramBot where
  channelID : List Char
  chatID : List Char
deriving DecidableEq, Repr

/-- The message composition of `SendMessage`: bolded subject, date line,
sender line, then either both bodies under labels or the translation
alone. -/
def composeMessage (subject content fromAddr date originalContent : List Char) : List Char :=
  "*".toList ++ subject ++ "*\n\n".toList ++
  "📅 ".toList ++ date ++ "\n".toList ++
  "📧 From: ".toList ++ fromAddr ++ "\n\n".toList ++
  (if !originalContent.isEmpty then
    "🇷🇺 Translation:\n".toList ++ content ++ "\n\n".toList ++
    "🇬🇧 Original:\n".toList ++ originalContent
  else content)

/-- telegram.go `SendMessage`.  `net chatID text` is the `sendToChat`
oracle: `true` when the HTTP round trip returns 200, `false` on any
transport error or non-200 status.  Returns whether the call succeeded and
the ordered list of destinations actually attempted. -/
def SendMessage (bot : TelegramBot) (net : List Char → List Char → Bool)
    (subject content fromAddr date originalContent : List Char) :
    Bool × List (List Char) :=
  let message := composeMessage subject content fromAddr date originalContent
  if !bot.channelID.isEmpty && net bot.channelID message then (true, [bot.channelID])
  else
    let attempted := if !bot.channelID.isEmpty then [bot.channelID] else []
    if !bot.chatID.isEmpty then (net bot.chatID message, attempted ++ [bot.chatID])
    else (false, attempted)

/-! ## The translator (translation.go `defaultTranslate`) -/

/-- translation.go `defaultModelName`. -/
def defaultModelName : List Char := "gemini-2.0-flash".toList

/-- translation.go `defaultPromptTemplate`. -/
def defaultPromptTemplate : List Char :=
  "Translate this text to {target_language}. Translate ALL non-{target_language} parts of the text, including English, Latvian, and any other languages. Keep {target_language} text unchanged. Preserve all formatting (bold, italic, etc.) and line breaks. Return ONLY the result, without any additional text, markers, or explanations:\n\n{text}".toList

/-- The translation section of the configuration. -/
structure TranslationCfg where
  GeminiAPIKey : List Char
  TargetLanguage : List Char
  ModelName : List Char
  PromptTemplate : List Char
deriving DecidableEq, Repr

/-- `genai.Content`: its parts, each modelled by its `fmt.Sprint`
rendering (a `genai.Text` part prints as its string). -/
structure GenContent where
  Parts : List (List Char)
deriving DecidableEq, Repr

/-- One response candidate (`genai.Candidate`); `Content` is a Go pointer,
so `none` models nil. -/
structure GenCandidate where
  Content : Option GenContent
deriving DecidableEq, Repr

/-- A generation response (`genai.GenerateContentResponse`). -/
structure GenResponse where
  Candidates : List GenCandidate
deriving DecidableEq, Repr

/-- The observable outcomes of `defaultTranslate`; `panicked` marks the
inputs on which the Go code dereferences nil or indexes out of bounds. -/
inductive TransResult where
  | errEmptyText
  | errBackend
  | errNoCandidates
  | panicked
  | ok (s : List Char)
deriving DecidableEq, Repr

/-- Literal "\x7btarget_language\x7d" placeholder. -/
def targetLangPH : List Char := "{target_language}".toList

/-- Literal "\x7btext\x7d" placeholder. -/
def textPH : List Char := "{text}".toList

/-- translation.go `defaultTranslate`.  `backend model prompt` is the
`GenerateContent` oracle (`none` = call error); the Bool of the result
records whether the backend was invoked at all. -/
def defaultTranslate (cfg : TranslationCfg)
    (backend : List Char → List Char → Option GenResponse) (text : List Char) :
    TransResult × Bool :=
  if text.isEmpty then (TransResult.errEmptyText, false)
  else
    let modelName := if cfg.ModelName.isEmpty then defaultModelName else cfg.ModelName
    let promptTemplate :=
      if cfg.PromptTemplate.isEmpty then defaultPromptTemplate else cfg.PromptTemplate
    let prompt := replaceAll (replaceAll promptTemplate targetLangPH cfg.TargetLanguage) textPH text
    match backend modelName prompt with
    | none => (TransResult.errBackend, true)
    | some resp =>
      match resp.Candidates with
      | [] => (TransResult.errNoCandidates, true)
      | c :: _ =>
        match c.Content with
        | none => (TransResult.panicked, true)
        | some content =>
          match content.Parts with
          | [] => (TransResult.panicked, true)
          | p :: _ => (TransResult.ok (trimSpace p), true)

/-! ## The poll pipeline (gmail.go `GetNewMessages` / `MarkAsForwarded`,
main.go `processMessage` / `processMessages`) with an effect trace -/

/-- One remote call, as recorded in the trace. -/
inductive Ev where
  | labelsList
  | labelsCreate (name : List Char)
  | msgsList (query : List Char)
  | msgsGet (id : List Char)
  | msgsModify (id : List Char)
  | translateReq (text : List Char)
  | notifyReq
deriving DecidableEq, Repr

/-- The error `GetNewMessages` returns, by originating step. -/
inductive GErr where
  | labelErr
  | listErr
  | getErr (id : List Char)
  | parseErr (id : List Char)
  | modifyErr (id : List Char)
deriving DecidableEq, Repr

/-- The remote mailbox: its labels and its messages. -/
structure World where
  labels : List GLabel
  msgs : List GMessage
deriving DecidableEq, Repr

/-- Success/failure oracles for every remote call the pipeline makes.
`msgsModifyOk` is indexed by the running count of modify calls so a
scenario can fail one specific modify; `translateRes` is the
`TranslationService.Translate` function field; `telegramOk` the
per-destination send oracle of `SendMessage`. -/
structure Net where
  labelsListOk : Bool
  labelsCreateOk : Bool
  msgsListOk : Bool
  msgsGetOk : List Char → Bool
  msgsModifyOk : Nat → Bool
  translateRes : List Char → Option (List Char)
  telegramOk : List Char → List Char → Bool

/-- The running state of one scenario: the remote world, the modify-call
counter and the trace of remote calls so far. -/
structure Sys where
  world : World
  nModify : Nat
  events : List Ev

/-- Record one remote call in the trace. -/
def pushEv (s : Sys) (e : Ev) : Sys := { s with events := s.events ++ [e] }

/-- Whether message `m` bears a label whose display name is `name`.
Modelled from the spec: this is the Gmail server's reading of the listing
query `-label:name` (spec §3: the listing query excludes messages bearing
the processed label); the server is an external collaborator, not code of
the repository. -/
def hasLabelName (w : World) (m : GMessage) (name : List Char) : Bool :=
  w.labels.any fun l => l.Name == name && m.LabelIds.contains l.Id

/-- The query string `GetNewMessages` builds (`fmt.Sprintf("-label:%s", …)`). -/
def buildQuery (name : List Char) : List Char := "-label:".toList ++ name

/-- `Users().Labels().List("me")`. -/
def svcLabelsList (net : Net) (s : Sys) : Sys × Option (List GLabel) :=
  let s := pushEv s Ev.labelsList
  (s, if net.labelsListOk then some s.world.labels else none)

/-- `Users().Labels().Create("me", …)`: the server assigns a fresh id
(modelled as `L` prefixed to the name) and stores the label. -/
def svcLabelsCreate (net : Net) (s : Sys) (name : List Char) : Sys × Option GLabel :=
  let s := pushEv s (Ev.labelsCreate name)
  if net.labelsCreateOk then
    let l : GLabel := ⟨'L' :: name, name⟩
    ({ s with world := { s.world with labels := s.world.labels ++ [l] } }, some l)
  else (s, none)

/-- `Users().Messages().List("me", query)`.  Modelled from the spec on the
server side: the query `-label:name` returns exactly the messages not
bearing that label. -/
def svcMsgsList (net : Net) (w : World) (labelName : List Char) : Option (List GMessage) :=
  if net.msgsListOk then some (w.msgs.filter fun m => !hasLabelName w m labelName) else none

/-- `Users().Messages().Get("me", id)`. -/
def svcMsgsGet (net : Net) (s : Sys) (id : List Char) : Sys × Option GMessage :=
  let s := pushEv s (Ev.msgsGet id)
  if net.msgsGetOk id then (s, s.world.msgs.find? fun m => m.Id == id) else (s, none)

/-- Apply a label to the message with the given id. -/
def addLabelTo (w : World) (id labelId : List Char) : World :=
  { w with
    msgs := w.msgs.map fun m =>
      if m.Id == id then { m with LabelIds := m.LabelIds ++ [labelId] } else m }

/-- `Users().Messages().Modify("me", id, AddLabelIds: [labelId])`. -/
def svcMsgsModify (net : Net) (s : Sys) (id labelId : List Char) : Sys × Bool :=
  let n := s.nModify
  let s := { pushEv s (Ev.msgsModify id) with nModify := n + 1 }
  if net.msgsModifyOk n then ({ s with world := addLabelTo s.world id labelId }, true)
  else (s, false)

/-- gmail.go `ensureLabelExists`: list all labels, return the id of the one
matching the configured name, create it only when absent. -/
def ensureLabelExists (net : Net) (cfg : GmailCfg) (s : Sys) : Sys × Option (List Char) :=
  match svcLabelsList net s with
  | (s, none) => (s, none)
  | (s, some labels) =>
    match labels.find? fun l => l.Name == cfg.ForwardedLabel with
    | some l => (s, some l.Id)
    | none =>
      match svcLabelsCreate net s cfg.ForwardedLabel with
      | (s, none) => (s, none)
      | (s, some l) => (s, some l.Id)

/-- The per-candidate loop of `GetNewMessages`: fetch, parse, filter,
collect, and label each kept message; any fetch, parse or modify failure
returns an error for the whole call. -/
def getNewMessagesLoop (net : Net) (cfg : GmailCfg) (labelId : List Char) :
    List GMessage → Sys → List Message → Sys × Except GErr (List Message)
  | [], s, acc => (s, Except.ok acc)
  | m :: rest, s, acc =>
    match svcMsgsGet net s m.Id with
    | (s, none) => (s, Except.error (GErr.getErr m.Id))
    | (s, some fullMsg) =>
      match parseMessage fullMsg with
      | Except.error _ => (s, Except.error (GErr.parseErr m.Id))
      | Except.ok pm =>
        if !shouldProcessMessage cfg.Filter pm then getNewMessagesLoop net cfg labelId rest s acc
        else
          match svcMsgsModify net s m.Id labelId with
          | (s, true) => getNewMessagesLoop net cfg labelId rest s (acc ++ [pm])
          | (s, false) => (s, Except.error (GErr.modifyErr m.Id))

/-- gmail.go `GetNewMessages`: ensure the label, list candidates with the
`-label:` query, then run the per-candidate loop. -/
def GetNewMessages (net : Net) (cfg : GmailCfg) (s : Sys) :
    Sys × Except GErr (List Message) :=
  match ensureLabelExists net cfg s with
  | (s, none) => (s, Except.error GErr.labelErr)
  | (s, some labelId) =>
    let s := pushEv s (Ev.msgsList (buildQuery cfg.ForwardedLabel))
    match svcMsgsList net s.world cfg.ForwardedLabel with
    | none => (s, Except.error GErr.listErr)
    | some msgs => getNewMessagesLoop net cfg labelId msgs s []

/-- gmail.go `MarkAsForwarded` (default implementation): one modify adding
the client's stored label id. -/
def MarkAsForwarded (net : Net) (labelID : List Char) (s : Sys) (messageID : List Char) :
    Sys × Bool :=
  svcMsgsModify net s messageID labelID

/-- main.go `processMessage`: translate, send to Telegram, then mark as
forwarded; the Bool reports end-to-end success. -/
def processMessage (net : Net) (bot : TelegramBot) (labelID : List Char) (s : Sys)
    (msg : Message) : Sys × Bool :=
  let s := pushEv s (Ev.translateReq msg.Content)
  match net.translateRes msg.Content with
  | none => (s, false)
  | some translated =>
    let s := pushEv s Ev.notifyReq
    let sent := SendMessage bot net.telegramOk msg.Subject translated msg.From msg.Date []
    if !sent.1 then (s, false)
    else
      match MarkAsForwarded net labelID s msg.ID with
      | (s, true) => (s, true)
      | (s, false) => (s, false)

/-- main.go `processMessages`: each message in listing order, a failure
logged and skipped, the rest still processed. -/
def processMessages (net : Net) (bot : TelegramBot) (labelID : List Char) :
    List Message → Sys → Sys × List Bool
  | [], s => (s, [])
  | m :: rest, s =>
    match processMessage net bot labelID s m with
    | (s, r) =>
      match processMessages net bot labelID rest s with
      | (s, rs) => (s, r :: rs)

/-- One tick of main.go `startMessageProcessing`: list new messages, then
process the batch (a listing error only skips the tick). -/
def pollCycle (net : Net) (cfg : GmailCfg) (bot : TelegramBot) (labelID : List Char)
    (s : Sys) : Sys × Except GErr (List Message) × List Bool :=
  match GetNewMessages net cfg s with
  | (s, Except.error e) => (s, Except.error e, [])
  | (s, Except.ok msgs) =>
    match processMessages net bot labelID msgs s with
    | (s, rs) => (s, Except.ok msgs, rs)

/-! ## The main entry point (main.go `main`), as a trace of steps -/

/-- The coarse steps of `main` and of the client construction it may
trigger (`NewGmailClient`: web authorization and token persistence happen
only inside `initializeServices`). -/
inductive MainEv where
  | configLoaded
  | intervalParsed
  | tokenWebAuth
  | tokenSaved
  | servicesInit
  | pollLoopStarted
  | exited
deriving DecidableEq, Repr

/-- main.go `main` on the success path of config loading and interval
parsing: when the generate-token flag is set the process logs and returns
at once; otherwise services are initialized (`NewGmailClient` performing
web authorization and saving the token only when the token file is not
readable) and the poll loop is started. -/
def mainEvents (generateToken : Bool) (tokenFileOk : Bool) : List MainEv :=
  [MainEv.configLoaded, MainEv.intervalParsed] ++
  (if generateToken then [MainEv.exited]
   else
     (if tokenFileOk then [] else [MainEv.tokenWebAuth, MainEv.tokenSaved]) ++
     [MainEv.servicesInit, MainEv.pollLoopStarted])

/-! ## Concrete scenarios -/

/-- The processed label, already existing remotely. -/
def labFwd : GLabel := ⟨"LBL1".toList, "Fwd".toList⟩

/-- One unlabeled message whose inline body is base64 of "hi". -/
def msgHello : GMessage :=
  { Id := "m1".toList
    LabelIds := []
    Payload := some
      { Headers :=
          [⟨"Subject".toList, "S1".toList⟩, ⟨"From".toList, "a@b".toList⟩,
            ⟨"Date".toList, "D1".toList⟩]
        Body := some ⟨"aGk=".toList⟩
        Parts := [] } }

/-- A second well-formed unlabeled message. -/
def msgHello2 : GMessage :=
  { Id := "m2".toList
    LabelIds := []
    Payload := some
      { Headers := [⟨"Subject".toList, "S2".toList⟩]
        Body := some ⟨"aGk=".toList⟩
        Parts := [] } }

/-- Configuration: processed label named "Fwd", no filter criteria. -/
def cfg1 : GmailCfg := { ForwardedLabel := "Fwd".toList, Filter := ⟨[], [], []⟩ }

/-- A bot with both destinations configured. -/
def bot1 : TelegramBot := ⟨"chan".toList, "chat".toList⟩

/-- A mailbox holding the label and the one message. -/
def w1 : World := ⟨[labFwd], [msgHello]⟩

/-- The initial state over `w1`. -/
def s1 : Sys := ⟨w1, 0, []⟩

/-- Every remote call succeeds; translation is the identity. -/
def netAllOk : Net :=
  { labelsListOk := true
    labelsCreateOk := true
    msgsListOk := true
    msgsGetOk := fun _ => true
    msgsModifyOk := fun _ => true
    translateRes := fun t => some t
    telegramOk := fun _ _ => true }

/-- As `netAllOk`, but only the first modify call succeeds: the modify
inside the listing works, the later `MarkAsForwarded` fails. -/
def netMarkFails : Net := { netAllOk with msgsModifyOk := fun n => n == 0 }

/-- As `netAllOk`, but fetching message "m1" fails. -/
def netGetFails : Net := { netAllOk with msgsGetOk := fun id => !(id == "m1".toList) }

/-- A mailbox with the label and two messages, the first of which will
fail to fetch under `netGetFails`. -/
def w2 : World := ⟨[labFwd], [msgHello, msgHello2]⟩

/-- The initial state over `w2`. -/
def s2 : Sys := ⟨w2, 0, []⟩

/-- The remote state after the cycle in which notification succeeded and
`MarkAsForwarded` failed, repolled from a fresh trace. -/
def c3sys2 : Sys := ⟨(pollCycle netMarkFails cfg1 bot1 labFwd.Id s1).1.world, 0, []⟩

/-- A message whose payload is present but every candidate datum is empty:
inline body with empty data and one text/plain part with empty data. -/
def allEmptyMsg : GMessage :=
  { Id := "e1".toList
    LabelIds := []
    Payload := some
      { Headers := []
        Body := some ⟨[]⟩
        Parts := [some { MimeType := "text/plain".toList, Body := some ⟨[]⟩ }] } }

/-- A message whose inline body data is not valid base64, so that parsing
it fails. -/
def msgBadB64 : GMessage :=
  { Id := "m3".toList
    LabelIds := []
    Payload := some
      { Headers := [⟨"Subject".toList, "S3".toList⟩]
        Body := some ⟨"!!!".toList⟩
        Parts := [] } }

/-- A mailbox whose first candidate fails to parse while the second is
well-formed. -/
def w3 : World := ⟨[labFwd], [msgBadB64, msgHello2]⟩

/-- The initial state over `w3`. -/
def s3 : Sys := ⟨w3, 0, []⟩

/-- A small translation configuration with an explicit template, so that
concrete runs stay small. -/
def transCfgSmall : TranslationCfg :=
  { GeminiAPIKey := []
    TargetLanguage := "ru".toList
    ModelName := "m".toList
    PromptTemplate := "{text}".toList }

/-! ## Theorems -/

/-- One criterion guard of `shouldProcessMessage` lets a message through
exactly when the spec-level criterion is satisfied. -/
theorem guard_false_iff (field : List Char) (kws : List (List Char)) :
    (kws.length > 0 && !anyKeywordMatches field kws) = false ↔ criterionSat field kws := by
  cases kws with
  | nil => simp [criterionSat, anyKeywordMatches]
  | cons k ks =>
    simp only [criterionSat, anyKeywordMatches, List.any_eq_true]
    cases hgk : goContains (toLowerStr field) (toLowerStr k) <;>
      simp [hgk, List.any_eq_true]

/-- C5: `shouldProcessMessage` is AND-of-present-criteria: it returns true
iff each non-empty criterion list (sender, subject, content, each OR'd
internally by case-insensitive substring containment) has a satisfied
entry, an empty list being trivially satisfied; with all three lists empty
every message matches. -/
theorem shouldProcessMessage_and_of_present_criteria (f : Filter) (msg : Message) :
    (shouldProcessMessage f msg = true ↔
      criterionSat msg.From f.From ∧ criterionSat msg.Subject f.SubjectKeywords ∧
        criterionSat msg.Content f.ContentKeywords) ∧
    shouldProcessMessage ⟨[], [], []⟩ msg = true := by
  refine ⟨?_, by simp [shouldProcessMessage]⟩
  rw [← guard_false_iff msg.From f.From, ← guard_false_iff msg.Subject f.SubjectKeywords,
    ← guard_false_iff msg.Content f.ContentKeywords]
  unfold shouldProcessMessage
  cases h1 : (f.From.length > 0 && !anyKeywordMatches msg.From f.From) <;>
    cases h2 : (f.SubjectKeywords.length > 0 && !anyKeywordMatches msg.Subject f.SubjectKeywords) <;>
      cases h3 : (f.ContentKeywords.length > 0 && !anyKeywordMatches msg.Content f.ContentKeywords) <;>
        simp [h1, h2, h3]

/-- C10: an empty-string entry in a criterion list satisfies that
criterion for every message (the empty string is contained in every
string), so a subject-keyword list holding only the empty string imposes
no subject constraint at all. -/
theorem emptyKeyword_trivial_criterion (field : List Char) (kws : List (List Char))
    (cfg : Filter) (msg : Message) (h : [] ∈ kws) :
    anyKeywordMatches field kws = true ∧
    shouldProcessMessage { cfg with SubjectKeywords := [[]] } msg =
      shouldProcessMessage { cfg with SubjectKeywords := [] } msg := by
  constructor
  · unfold anyKeywordMatches
    rw [List.any_eq_true]
    exact ⟨[], h, by simp [goContains, toLowerStr]⟩
  · simp [shouldProcessMessage, anyKeywordMatches, goContains, toLowerStr]

/-- Witness for the C10 theorem at a concrete keyword list and message. -/
theorem emptyKeyword_trivial_criterion_witness :
    anyKeywordMatches ['a'] [[], ['b']] = true ∧
    shouldProcessMessage ⟨[], [[]], []⟩ ⟨[], [], [], [], []⟩ =
      shouldProcessMessage ⟨[], [], []⟩ ⟨[], [], [], [], []⟩ :=
  emptyKeyword_trivial_criterion ['a'] [[], ['b']] ⟨[], [], []⟩ ⟨[], [], [], [], []⟩
    (by simp)

/-- C7: `SendMessage` attempts the primary destination first, attempts the
secondary on any primary failure when configured, fails exactly when every
configured destination failed (vacuously, when neither is configured), and
makes no network call when neither destination is configured. -/
theorem sendMessage_fallback_policy (bot : TelegramBot) (net : List Char → List Char → Bool)
    (subject content fromAddr date orig : List Char) :
    ((SendMessage bot net subject content fromAddr date orig).1 = false ↔
      (bot.channelID.isEmpty = false →
        net bot.channelID (composeMessage subject content fromAddr date orig) = false) ∧
      (bot.chatID.isEmpty = false →
        net bot.chatID (composeMessage subject content fromAddr date orig) = false)) ∧
    (bot.channelID.isEmpty = true → bot.chatID.isEmpty = true →
      (SendMessage bot net subject content fromAddr date orig).2 = []) ∧
    (bot.channelID.isEmpty = false →
      (SendMessage bot net subject content fromAddr date orig).2.head? = some bot.channelID) ∧
    (bot.channelID.isEmpty = false →
      net bot.channelID (composeMessage subject content fromAddr date orig) = false →
      bot.chatID.isEmpty = false →
      (SendMessage bot net subject content fromAddr date orig).2 =
        [bot.channelID, bot.chatID]) := by
  rcases bot with ⟨ch, chat⟩
  cases hch : ch.isEmpty <;> cases hchat : chat.isEmpty <;>
    cases hn1 : net ch (composeMessage subject content fromAddr date orig) <;>
      cases hn2 : net chat (composeMessage subject content fromAddr date orig) <;>
        simp [SendMessage, hch, hchat, hn1, hn2]

/-- C8: on empty input text `defaultTranslate` fails at once and the
backend is never invoked. -/
theorem defaultTranslate_empty_text (cfg : TranslationCfg)
    (backend : List Char → List Char → Option GenResponse) :
    defaultTranslate cfg backend [] = (TransResult.errEmptyText, false) := rfl

/-- C9: `defaultTranslate` guards only against an empty candidate list: a
response whose first candidate has a nil content, or a content with no
parts, drives the code into the out-of-bounds access (a panic), not into a
TranslationError; an empty candidate list is the one guarded error. -/
theorem defaultTranslate_candidate_access_panics :
    defaultTranslate transCfgSmall (fun _ _ => some ⟨[⟨none⟩]⟩) "hi".toList =
      (TransResult.panicked, true) ∧
    defaultTranslate transCfgSmall (fun _ _ => some ⟨[⟨some ⟨[]⟩⟩]⟩) "hi".toList =
      (TransResult.panicked, true) ∧
    defaultTranslate transCfgSmall (fun _ _ => some ⟨[]⟩) "hi".toList =
      (TransResult.errNoCandidates, true) :=
  ⟨rfl, rfl, rfl⟩

/-- C4 (amended): `getMessageContent` errors exactly when the payload is
absent or the selected datum (inline body if non-empty, else the first
non-empty text/plain part) is not valid base64; when nothing is selected —
in particular when every candidate part is empty — it succeeds with empty
content, and a selected datum decoding to any string (the empty one
included) succeeds with that string. -/
theorem getMessageContent_error_charact (m : GMessage) :
    (getMessageContent m = Except.error () ↔
      m.Payload = none ∨
        ∃ p d, m.Payload = some p ∧ selectedPayloadData p = some d ∧ b64Decode d = none) ∧
    (∀ p, m.Payload = some p → selectedPayloadData p = none →
      getMessageContent m = Except.ok []) ∧
    (∀ p d s, m.Payload = some p → selectedPayloadData p = some d → b64Decode d = some s →
      getMessageContent m = Except.ok s) := by
  refine ⟨?_, ?_, ?_⟩
  · rcases m with ⟨id, ls, pay⟩
    cases pay with
    | none => simp [getMessageContent]
    | some p =>
      cases hd : selectedPayloadData p with
      | none => simp [getMessageContent, hd]
      | some d =>
        cases hb : b64Decode d with
        | none => simp [getMessageContent, hd, hb]
        | some s => simp [getMessageContent, hd, hb]
  · intro p hp hsel
    simp [getMessageContent, hp, hsel]
  · intro p d s hp hsel hb
    simp [getMessageContent, hp, hsel, hb]

/-- C4 counterexample: a present payload whose inline body and only
text/plain part both carry empty data parses successfully to empty
content; the claim's "ParseError when every candidate part is empty after
decoding" is false on this input. -/
theorem getMessageContent_all_empty_parts_succeeds :
    getMessageContent allEmptyMsg = Except.ok [] ∧ allEmptyMsg.Payload.isSome = true :=
  ⟨rfl, rfl⟩

/-- C1: on a fully successful run over one matching message, the modify
call adding the processed label is issued twice with that message's
identifier — once inside the listing call, before translation and
notification, and once after the successful relay — refuting
label-only-after-relay and exactly-once marking. -/
theorem pollCycle_double_modify_trace :
    (pollCycle netAllOk cfg1 bot1 labFwd.Id s1).1.events =
      [Ev.labelsList, Ev.msgsList ("-label:Fwd".toList), Ev.msgsGet ("m1".toList),
        Ev.msgsModify ("m1".toList), Ev.translateReq ("hi".toList), Ev.notifyReq,
        Ev.msgsModify ("m1".toList)] ∧
    (pollCycle netAllOk cfg1 bot1 labFwd.Id s1).2.2 = [true] ∧
    (pollCycle netAllOk cfg1 bot1 labFwd.Id s1).1.events.count
        (Ev.msgsModify ("m1".toList)) = 2 :=
  ⟨rfl, rfl, rfl⟩

/-- C3: when notification succeeds and only the subsequent
`MarkAsForwarded` modify fails, the message was already labelled during
the listing call, so the next poll's listing returns nothing and the
message is never re-fetched — delivery is not at-least-once. -/
theorem markFailure_not_redelivered_trace :
    (pollCycle netMarkFails cfg1 bot1 labFwd.Id s1).1.events =
      [Ev.labelsList, Ev.msgsList ("-label:Fwd".toList), Ev.msgsGet ("m1".toList),
        Ev.msgsModify ("m1".toList), Ev.translateReq ("hi".toList), Ev.notifyReq,
        Ev.msgsModify ("m1".toList)] ∧
    (pollCycle netMarkFails cfg1 bot1 labFwd.Id s1).2.2 = [false] ∧
    (GetNewMessages netAllOk cfg1 c3sys2).2 = Except.ok [] ∧
    (GetNewMessages netAllOk cfg1 c3sys2).1.events =
      [Ev.labelsList, Ev.msgsList ("-label:Fwd".toList)] :=
  ⟨rfl, rfl, rfl, rfl⟩

/-- C2 counterexample: with the listing call succeeding over two
candidates and only the first one's fetch failing, `GetNewMessages`
returns an error for the whole call and the second candidate is never
fetched — per-message faults are not skipped. -/
theorem getNewMessages_fetch_failure_aborts :
    netGetFails.msgsListOk = true ∧
    (GetNewMessages netGetFails cfg1 s2).2 = Except.error (GErr.getErr ("m1".toList)) ∧
    (GetNewMessages netGetFails cfg1 s2).1.events =
      [Ev.labelsList, Ev.msgsList ("-label:Fwd".toList), Ev.msgsGet ("m1".toList)] :=
  ⟨rfl, rfl, rfl⟩

/-- C2 (amended): `GetNewMessages` fails the whole call not only when the
listing call fails (second conjunct) but also whenever any candidate fails
to fetch, however many candidates were already handled successfully (first
conjunct), and likewise when a candidate fails to parse (third conjunct, a
batch whose first candidate carries invalid base64: the call errors and
the second candidate is never reached): per-message faults abort the batch
instead of being skipped. -/
theorem getNewMessages_abort_policy (net : Net) (cfg : GmailCfg) (labelId : List Char)
    (pre : List GMessage) (m : GMessage) (rest : List GMessage) (s sFin : Sys)
    (acc res : List Message)
    (hpre : getNewMessagesLoop net cfg labelId pre s acc = (sFin, Except.ok res))
    (hget : net.msgsGetOk m.Id = false) :
    ((getNewMessagesLoop net cfg labelId (pre ++ m :: rest) s acc).2 =
      Except.error (GErr.getErr m.Id)) ∧
    (∀ s₂ s₃ lid, ensureLabelExists net cfg s₂ = (s₃, some lid) → net.msgsListOk = false →
      (GetNewMessages net cfg s₂).2 = Except.error GErr.listErr) ∧
    ((GetNewMessages netAllOk cfg1 s3).2 = Except.error (GErr.parseErr ("m3".toList)) ∧
      (GetNewMessages netAllOk cfg1 s3).1.events =
        [Ev.labelsList, Ev.msgsList ("-label:Fwd".toList), Ev.msgsGet ("m3".toList)]) := by
  refine ⟨?_, ?_, rfl, rfl⟩
  · induction pre generalizing s acc with
    | nil =>
      simp [getNewMessagesLoop, svcMsgsGet, hget]
    | cons p ps ih =>
      rw [List.cons_append] at *
      rcases hg : svcMsgsGet net s p.Id with ⟨s', fm?⟩
      cases fm? with
      | none => simp [getNewMessagesLoop, hg] at hpre
      | some fullMsg =>
        cases hp : parseMessage fullMsg with
        | error e => simp [getNewMessagesLoop, hg, hp] at hpre
        | ok pm =>
          cases hsp : shouldProcessMessage cfg.Filter pm with
          | false =>
            simp only [getNewMessagesLoop, hg, hp, hsp, Bool.not_false, if_pos] at hpre ⊢
            exact ih _ _ hpre
          | true =>
            rcases hm : svcMsgsModify net s' p.Id labelId with ⟨s'', ok⟩
            cases ok with
            | false =>
              simp [getNewMessagesLoop, hg, hp, hsp, hm] at hpre
            | true =>
              simp only [getNewMessagesLoop, hg, hp, hsp, hm, Bool.not_true,
                Bool.false_eq_true, if_false] at hpre ⊢
              exact ih _ _ hpre
  · intro s₂ s₃ lid hens hlist
    simp [GetNewMessages, hens, svcMsgsList, hlist]

/-- Witness for the C2 amended theorem: a one-candidate batch whose fetch
fails under `netGetFails` aborts the loop with that candidate's error. -/
theorem getNewMessages_abort_policy_witness :
    (getNewMessagesLoop netGetFails cfg1 ("LBL1".toList) [msgHello] s2 []).2 =
      Except.error (GErr.getErr ("m1".toList)) :=
  (getNewMessages_abort_policy netGetFails cfg1 ("LBL1".toList) [] msgHello [] s2 s2 [] []
    rfl rfl).1

/-- C6: with the generate-token flag set, `main` loads the configuration,
parses the interval and exits at once: no web authorization is performed,
no token is saved, and the poll loop is not started — whatever the state
of the token file. -/
theorem mainEvents_generate_token_no_auth (tokenFileOk : Bool) :
    mainEvents true tokenFileOk =
      [MainEv.configLoaded, MainEv.intervalParsed, MainEv.exited] ∧
    (mainEvents true tokenFileOk).contains MainEv.tokenWebAuth = false ∧
    (mainEvents true tokenFileOk).contains MainEv.tokenSaved = false ∧
    (mainEvents true tokenFileOk).contains MainEv.pollLoopStarted = false :=
  ⟨rfl, rfl, rfl, rfl⟩

end G2T
